import Mathlib

/-!
Verification development for the knockbody image editor (src/index.tsx).

The source is a single-file React canvas editor.  We shallowly embed its
scene model, color analyzer, text layout, history manager, hit tester and
export compositor as pure Lean functions and prove the frozen claims about
them.

Modelling conventions:
* JavaScript numbers are modelled as rationals (every finite double is a
  rational).  `Math.round` is `jsRound` (round half toward positive
  infinity, i.e. `⌊q + 1/2⌋`, which is exactly JS `Math.round` semantics).
* `Math.cos`, `Math.sin` and `Math.PI` have no exact specification in
  ECMAScript (they are implementation approximations), so they are carried
  as an uninterpreted bundle `JsMath`.  Every theorem quantifying over
  `JsMath` therefore holds for the actual runtime trig functions.
* `ctx.getImageData(x, y, 1, 1)` on a canvas never throws for in-range
  sizes; pixels outside the canvas read as transparent black `(0,0,0)`.
  The `try`/`catch` around the sample reads in the source is therefore
  dead and each sample always lands in the `samples` array.
* Canvas 2D drawing is modelled as a trace of primitive draw commands,
  each carrying the full context state (transform matrix, fill style,
  font, alignment, alpha) at the moment of the call.  Rasterization of a
  command trace is deterministic, so equal traces mean pixel-identical
  output images.
-/

/-- JS `Math.round`: round half toward +∞. -/
def jsRound (q : ℚ) : ℤ := ⌊q + 1/2⌋

/-- The implementation-approximated parts of JS `Math` used by the source:
`Math.cos`, `Math.sin` (on radian arguments, as doubles, i.e. rationals)
and the double value of `Math.PI`.  Kept uninterpreted. -/
structure JsMath where
  cos : ℚ → ℚ
  sin : ℚ → ℚ
  pi : ℚ

/-- One RGB pixel as read from `ImageData` (channels 0..255). -/
structure Rgb where
  r : ℕ
  g : ℕ
  b : ℕ
deriving DecidableEq

/-- A decoded pixel buffer (`ImageData` of the original canvas): width,
height and the row-major pixel grid. -/
structure Raster where
  width : ℕ
  height : ℕ
  data : List (List Rgb)
deriving DecidableEq

/-- `ctx.getImageData(x, y, 1, 1)`: pixels outside the canvas read as
transparent black. -/
def getPixel (ras : Raster) (x y : ℤ) : Rgb :=
  if 0 ≤ x ∧ x < (ras.width : ℤ) ∧ 0 ≤ y ∧ y < (ras.height : ℤ) then
    (ras.data.getD y.toNat []).getD x.toNat ⟨0, 0, 0⟩
  else ⟨0, 0, 0⟩

/-- Value of one hex digit character, or `none` (`[a-f\d]`, case-insensitive,
as in the source's regular expression). -/
def hexDigitVal (c : Char) : Option ℕ :=
  if 48 ≤ c.toNat ∧ c.toNat ≤ 57 then some (c.toNat - 48)
  else if 97 ≤ c.toNat ∧ c.toNat ≤ 102 then some (c.toNat - 87)
  else if 65 ≤ c.toNat ∧ c.toNat ≤ 70 then some (c.toNat - 55)
  else none

/-- Lowercase hex digit character (`Number.prototype.toString(16)`). -/
def hexChar (n : ℕ) : Char :=
  if n < 10 then Char.ofNat (48 + n) else Char.ofNat (87 + n)

/-- Two lowercase hex digits (`toString(16).padStart(2, '0')` for a value
that has been clamped to 0..255). -/
def byteHex (n : ℕ) : List Char := [hexChar (n / 16 % 16), hexChar (n % 16)]

/-- `rgbToHex` from the source: clamp each channel to 0..255 and format as
`#rrggbb` (lowercase). -/
def rgbToHex (r g b : ℤ) : String :=
  ⟨'#' :: (byteHex (min 255 (max 0 r)).toNat ++ byteHex (min 255 (max 0 g)).toNat
    ++ byteHex (min 255 (max 0 b)).toNat)⟩

/-- `hexToRgb` from the source: parse `#?rrggbb` (case-insensitive) or
return `none`. -/
def hexToRgb (s : String) : Option Rgb :=
  let cs := if s.data.head? = some '#' then s.data.tail else s.data
  match cs with
  | [c1, c2, c3, c4, c5, c6] =>
    match hexDigitVal c1, hexDigitVal c2, hexDigitVal c3,
          hexDigitVal c4, hexDigitVal c5, hexDigitVal c6 with
    | some d1, some d2, some d3, some d4, some d5, some d6 =>
      some ⟨16 * d1 + d2, 16 * d3 + d4, 16 * d5 + d6⟩
    | _, _, _, _, _, _ => none
  | _ => none

/-- `getLuminance` from the source: `(0.299 r + 0.587 g + 0.114 b) / 255`. -/
def getLuminance (r g b : ℕ) : ℚ :=
  ((299 / 1000 : ℚ) * r + (587 / 1000 : ℚ) * g + (114 / 1000 : ℚ) * b) / 255

/-- `|a - b|` on channel values. -/
def absDiff (a b : ℕ) : ℕ := ((a : ℤ) - (b : ℤ)).natAbs

/-- Rounded average of one channel over a sample list. -/
def avgChannel (samples : List Rgb) (f : Rgb → ℕ) : ℤ :=
  jsRound (((samples.map f).sum : ℚ) / (samples.length : ℚ))

/-- `detectBackgroundColorFast`: sample the 4 inset corners and the 4 edge
midpoints of the rectangle and average them.  All 8 reads succeed (see the
note on `getImageData`), out-of-canvas reads contributing black. -/
def detectBackgroundColorFast (ras : Raster) (x y w h : ℚ) : String :=
  let points : List (ℚ × ℚ) :=
    [(x + 2, y + 2), (x + w - 2, y + 2), (x + 2, y + h - 2), (x + w - 2, y + h - 2),
     (x + w / 2, y + 2), (x + w / 2, y + h - 2), (x + 2, y + h / 2), (x + w - 2, y + h / 2)]
  let samples := points.map (fun p => getPixel ras (jsRound p.1) (jsRound p.2))
  if samples = [] then "#ffffff"
  else rgbToHex (avgChannel samples Rgb.r) (avgChannel samples Rgb.g) (avgChannel samples Rgb.b)

/-- The 5 circle samples read by `detectTextColorFast`: points on a circle
of radius `min w h / 4` around the rectangle's center. -/
def textSamples (jm : JsMath) (ras : Raster) (x y w h : ℚ) : List Rgb :=
  let centerX := x + w / 2
  let centerY := y + h / 2
  let sampleRadius := min w h / 4
  (List.range 5).map (fun i =>
    let angle := ((i : ℚ) / 5) * jm.pi * 2
    let px := centerX + jm.cos angle * sampleRadius
    let py := centerY + jm.sin angle * sampleRadius
    getPixel ras (jsRound px) (jsRound py))

/-- `detectTextColorFast`: find the sample most distant (summed per-channel
absolute difference) from the background color; below the contrast
threshold 100 fall back to black/white by background luminance. -/
def detectTextColorFast (jm : JsMath) (ras : Raster) (x y w h : ℚ) (bgColor : String) : String :=
  match hexToRgb bgColor with
  | none => "#000000"
  | some bgRgb =>
    let samples := textSamples jm ras x y w h
    let best := samples.foldl (fun (acc : ℕ × String) s =>
      let diff := absDiff s.r bgRgb.r + absDiff s.g bgRgb.g + absDiff s.b bgRgb.b
      if diff > acc.1 then (diff, rgbToHex s.r s.g s.b) else acc) (0, "#000000")
    if best.1 < 100 then
      if getLuminance bgRgb.r bgRgb.g bgRgb.b > 1/2 then "#000000" else "#ffffff"
    else best.2

/-- Result record of `analyzeTextAreaFast`. -/
structure Analysis where
  bgColor : String
  textColor : String
  fontSize : ℤ
deriving DecidableEq

/-- `analyzeTextAreaFast`: clamp the rectangle to the canvas, then detect
background color, text color and a font size `round(safeH * 0.7)` clamped
to `[12, 200]`.  `ras? = none` models a missing `originalCanvasRef`. -/
def analyzeTextAreaFast (jm : JsMath) (ras? : Option Raster) (x y w h : ℚ) : Analysis :=
  match ras? with
  | none => ⟨"#ffffff", "#000000", jsRound (h * (7/10))⟩
  | some ras =>
    let canvasWidth : ℤ := ras.width
    let canvasHeight : ℤ := ras.height
    let safeX := max 0 (min (jsRound x) (canvasWidth - 1))
    let safeY := max 0 (min (jsRound y) (canvasHeight - 1))
    let safeW := min (jsRound w) (canvasWidth - safeX)
    let safeH := min (jsRound h) (canvasHeight - safeY)
    if safeW ≤ 0 ∨ safeH ≤ 0 then ⟨"#ffffff", "#000000", jsRound (h * (7/10))⟩
    else
      let bgColor := detectBackgroundColorFast ras (safeX : ℚ) (safeY : ℚ) (safeW : ℚ) (safeH : ℚ)
      let textColor := detectTextColorFast jm ras (safeX : ℚ) (safeY : ℚ) (safeW : ℚ) (safeH : ℚ) bgColor
      let fontSize := jsRound ((safeH : ℚ) * (7/10))
      ⟨bgColor, textColor, max 12 (min 200 fontSize)⟩

/-- `detectSurroundingColor`: average of up to 4 samples taken 10px outside
the rectangle, each individually bounds-checked (before rounding) and
skipped when outside the canvas; white when every sample is skipped. -/
def detectSurroundingColor (ras? : Option Raster) (x y w h : ℚ) : String :=
  match ras? with
  | none => "#ffffff"
  | some ras =>
    let margin : ℚ := 10
    let points : List (ℚ × ℚ) :=
      [(x - margin, y + h / 2), (x + w + margin, y + h / 2),
       (x + w / 2, y - margin), (x + w / 2, y + h + margin)]
    let inBounds := points.filter (fun p =>
      0 ≤ p.1 ∧ p.1 < (ras.width : ℚ) ∧ 0 ≤ p.2 ∧ p.2 < (ras.height : ℚ))
    let samples := inBounds.map (fun p => getPixel ras (jsRound p.1) (jsRound p.2))
    if samples = [] then "#ffffff"
    else rgbToHex (avgChannel samples Rgb.r) (avgChannel samples Rgb.g) (avgChannel samples Rgb.b)

/-! ## Text layout (`wrapTextWithNewlines`) -/

/-- JS `text.split('\n')` on a character list: always at least one
(possibly empty) piece, newlines become piece boundaries. -/
def splitNl : List Char → List (List Char)
  | [] => [[]]
  | c :: rest =>
    if c = '\n' then [] :: splitNl rest
    else
      match splitNl rest with
      | [] => [[c]]
      | l :: ls => (c :: l) :: ls

/-- Rejoin lines with explicit line breaks (`lines.flatten('\n')`). -/
def joinNl : List (List Char) → List Char
  | [] => []
  | [l] => l
  | l :: ls => l ++ '\n' :: joinNl ls

/-- One step of the greedy per-character wrap loop: accumulated finished
lines plus the running line, fed one character. -/
def wrapStep (measure : List Char → ℚ) (maxWidth : ℚ)
    (acc : List (List Char) × List Char) (ch : Char) : List (List Char) × List Char :=
  let testLine := acc.2 ++ [ch]
  if measure testLine > maxWidth ∧ acc.2 ≠ [] then (acc.1 ++ [acc.2], [ch])
  else (acc.1, testLine)

/-- Wrap a single (newline-free) paragraph: fold the greedy step over its
characters, then push the running line if nonempty (`if (currentLine)`). -/
def wrapParagraph (measure : List Char → ℚ) (maxWidth : ℚ) (para : List Char) : List (List Char) :=
  let acc := para.foldl (wrapStep measure maxWidth) ([], [])
  if acc.2 ≠ [] then acc.1 ++ [acc.2] else acc.1

/-- `wrapTextWithNewlines(ctx, text, maxWidth)`: split on explicit line
breaks (an empty paragraph stays as one empty line), then greedily wrap
each paragraph.  `measure` stands for `ctx.measureText` at the current
font. -/
def wrapTextWithNewlines (measure : List Char → ℚ) (maxWidth : ℚ) (text : List Char) :
    List (List Char) :=
  ((splitNl text).map (fun para =>
    if para = [] then [[]] else wrapParagraph measure maxWidth para)).flatten

/-! ## Scene model -/

/-- Region kinds (`SelectionType`). -/
inductive SelectionType where
  | text
  | imageAi
  | imageReplace
deriving DecidableEq

/-- `SelectionArea`: a user-drawn rectangle plus optional styling.
Optional fields model the `?:` fields of the TypeScript interface. -/
structure SelectionArea where
  id : ℕ
  x : ℚ
  y : ℚ
  w : ℚ
  h : ℚ
  type : SelectionType
  replacementImage : Option String := none
  imageRotation : Option ℚ := none
  imageFlipX : Option Bool := none
  imageFlipY : Option Bool := none
  textColor : Option String := none
  textBgColor : Option String := none
  fontSize : Option ℚ := none
  fontWeight : Option String := none
  textAlign : Option String := none
  fontFamily : Option String := none
  textRotation : Option ℚ := none
  autoFitWidth : Option Bool := none
deriving DecidableEq

/-- `Sticker`. -/
structure Sticker where
  id : ℕ
  src : String
  x : ℚ
  y : ℚ
  w : ℚ
  h : ℚ
  rotation : ℚ
  flipX : Bool
  opacity : ℚ
  scale : ℚ
deriving DecidableEq

/-- `TextSegment` of a custom text. -/
structure TextSegment where
  text : String
  color : String
  newLine : Option Bool := none
deriving DecidableEq

/-- `CustomText`. -/
structure CustomText where
  id : ℕ
  segments : List TextSegment
  x : ℚ
  y : ℚ
  fontSize : ℚ
  scale : ℚ
  opacity : ℚ
  fontWeight : String
  rotation : ℚ
  fontFamily : Option String := none
deriving DecidableEq

/-- `HistoryState`: one immutable snapshot of the scene — also the shape
of the live scene itself (selections, replacement-value map, stickers,
custom texts).  The replacement map is keyed by region identity. -/
structure HistoryState where
  selections : List SelectionArea
  replacements : List (ℕ × String)
  stickers : List Sticker
  customTexts : List CustomText
deriving DecidableEq

instance : Inhabited HistoryState := ⟨⟨[], [], [], []⟩⟩

/-- `replacements[id] || ''`: a missing entry reads as the empty string. -/
def lookupRep (rs : List (ℕ × String)) (i : ℕ) : String :=
  match rs.find? (fun p => p.1 = i) with
  | some p => p.2
  | none => ""

/-- JS `opt || dflt` on an optional string (empty string is falsy). -/
def jsOrS (o : Option String) (dflt : String) : String :=
  match o with
  | some s => if s = "" then dflt else s
  | none => dflt

/-- JS `opt || dflt` on an optional number (0 is falsy). -/
def jsOrQ (o : Option ℚ) (dflt : ℚ) : ℚ :=
  match o with
  | some q => if q = 0 then dflt else q
  | none => dflt

/-- JS truthiness of an optional boolean flag. -/
def jsOrB (o : Option Bool) : Bool := o.getD false

/-! ## History manager (`addToHistory` / `undo` / `redo`) -/

/-- The history-relevant component state: the history list, the cursor
(`historyIndex`, `-1` when empty) and the live scene the setters and the
`addToHistory` closure read. -/
structure EditorState where
  history : List HistoryState
  historyIndex : ℤ
  scene : HistoryState
deriving DecidableEq

/-- `addToHistory`: snapshot the scene read by the closure, discard every
state past the cursor (`history.slice(0, historyIndex + 1)`), append the
snapshot and move the cursor to the new tail. -/
def addToHistory (st : EditorState) : EditorState :=
  let newState := st.scene
  let newHistory := st.history.take (st.historyIndex + 1).toNat ++ [newState]
  { history := newHistory, historyIndex := (newHistory.length : ℤ) - 1, scene := st.scene }

/-- `undo`: when the cursor is positive, decrement it and load that
snapshot as the live scene; otherwise a no-op. -/
def undo (st : EditorState) : EditorState :=
  if 0 < st.historyIndex then
    let newIndex := st.historyIndex - 1
    { history := st.history, historyIndex := newIndex,
      scene := st.history.getD newIndex.toNat default }
  else st

/-- `redo`: when the cursor is before the tail, increment it and load that
snapshot; otherwise a no-op. -/
def redo (st : EditorState) : EditorState :=
  if st.historyIndex < (st.history.length : ℤ) - 1 then
    let newIndex := st.historyIndex + 1
    { history := st.history, historyIndex := newIndex,
      scene := st.history.getD newIndex.toNat default }
  else st

/-- A discrete edit operation against the history manager: `commit a`
models "mutate the scene to `a`, then `addToHistory` snapshots it". -/
inductive EditOp where
  | commit (a : HistoryState)
  | undoOp
  | redoOp

/-- Apply one edit operation. -/
def applyOp (st : EditorState) : EditOp → EditorState
  | .commit a => addToHistory { st with scene := a }
  | .undoOp => undo st
  | .redoOp => redo st

/-- Apply a sequence of edit operations. -/
def applyOps (st : EditorState) (ops : List EditOp) : EditorState :=
  ops.foldl applyOp st

/-- Initial editor state: empty history, cursor `-1`. -/
def initEditor (a : HistoryState) : EditorState := ⟨[], -1, a⟩

/-- The history invariant: the cursor is a valid index into the history
list, or `-1` exactly when the list is empty. -/
def histInv (st : EditorState) : Prop :=
  (st.history = [] ∧ st.historyIndex = -1) ∨
    (0 ≤ st.historyIndex ∧ st.historyIndex < (st.history.length : ℤ))

/-! ## Hit tester (selection pass of `onMouseDown`) -/

/-- The rotation used for hit-testing a selection region: only `text`
regions with a truthy `textRotation` are tested rotated (`sel.type ===
'text' && sel.textRotation ? sel.textRotation : 0`; a stored rotation of
`0` is falsy, which coincides with `getD 0`). -/
def hitRotation (sel : SelectionArea) : ℚ :=
  if sel.type = SelectionType.text then sel.textRotation.getD 0 else 0

/-- The selection hit test of `onMouseDown`: translate the pointer into
the rectangle-center frame, rotate by the negative rotation, and test the
axis-aligned box `[-w/2, w/2] × [-h/2, h/2]`. -/
def selectionHitTest (jm : JsMath) (sel : SelectionArea) (px py : ℚ) : Bool :=
  let centerX := sel.x + sel.w / 2
  let centerY := sel.y + sel.h / 2
  let dx := px - centerX
  let dy := py - centerY
  let rotation := hitRotation sel
  let rad := (-rotation * jm.pi) / 180
  let c := jm.cos rad
  let s := jm.sin rad
  let rx := dx * c - dy * s
  let ry := dx * s + dy * c
  decide (-(sel.w / 2) ≤ rx ∧ rx ≤ sel.w / 2 ∧ -(sel.h / 2) ≤ ry ∧ ry ≤ sel.h / 2)

/-! ## Scene mutation: region creation on pointer-up -/

/-- `MAX_SELECTIONS`. -/
def MAX_SELECTIONS : ℕ := 10

/-- The region-creation branch of `onMouseUp` (reached when a drag was in
progress): build the candidate rectangle from the drag start and the
pointer-up position; create a region and push a history entry only when
both dimensions exceed 10 and fewer than `MAX_SELECTIONS` regions exist,
otherwise change nothing.  `addToHistory` runs in the same event handler,
so the snapshot it reads is the captured pre-event scene (React state
setters have not re-rendered yet). -/
def onMouseUpCreate (jm : JsMath) (ras? : Option Raster) (autoAnalyze : Bool)
    (mode : SelectionType) (newId : ℕ) (sx sy x y : ℚ) (st : EditorState) : EditorState :=
  let startX := min sx x
  let startY := min sy y
  let width := |x - sx|
  let height := |y - sy|
  if width > 10 ∧ height > 10 ∧ st.scene.selections.length < MAX_SELECTIONS then
    let colors : String × String × ℚ :=
      if autoAnalyze then
        if mode = SelectionType.text then
          let a := analyzeTextAreaFast jm ras? startX startY width height
          (a.bgColor, a.textColor, (a.fontSize : ℚ))
        else if mode = SelectionType.imageReplace then
          (detectSurroundingColor ras? startX startY width height, "#000000", 32)
        else ("#ffffff", "#000000", 32)
      else ("#ffffff", "#000000", 32)
    let newSelection : SelectionArea :=
      { id := newId, x := startX, y := startY, w := width, h := height, type := mode,
        textColor := some colors.2.1, textBgColor := some colors.1,
        fontSize := some colors.2.2, fontWeight := some "normal",
        textAlign := some "center", fontFamily := some "Noto Sans KR" }
    let committed := addToHistory st
    { committed with
      scene := { st.scene with selections := st.scene.selections ++ [newSelection] } }
  else st

/-! ## Compositor: canvas context as a trace of draw commands -/

/-- A canvas 2D affine transform `(a, b, c, d, e, f)`:
`x' = a·x + c·y + e`, `y' = b·x + d·y + f`. -/
structure Mat where
  a : ℚ
  b : ℚ
  c : ℚ
  d : ℚ
  e : ℚ
  f : ℚ
deriving DecidableEq

/-- Identity transform. -/
def Mat.idm : Mat := ⟨1, 0, 0, 1, 0, 0⟩

/-- Transform composition (current × new, as canvas `transform`). -/
def Mat.mul (m n : Mat) : Mat :=
  ⟨m.a * n.a + m.c * n.b, m.b * n.a + m.d * n.b,
   m.a * n.c + m.c * n.d, m.b * n.c + m.d * n.d,
   m.a * n.e + m.c * n.f + m.e, m.b * n.e + m.d * n.f + m.f⟩

/-- The style/transform state of a 2D context relevant to the export
path. -/
structure CtxState where
  transform : Mat
  fillStyle : String
  font : String
  textAlign : String
  textBaseline : String
  globalAlpha : ℚ
deriving DecidableEq

/-- Fresh-context defaults. -/
def CtxState.init : CtxState :=
  ⟨Mat.idm, "#000000", "10px sans-serif", "start", "alphabetic", 1⟩

/-- One pixel-affecting canvas command, carrying the context state in
effect when it was issued (`putImageData` ignores transform and alpha). -/
inductive DrawOp where
  | putImageData (ras : Raster) (dx dy : ℚ)
  | fillRect (st : CtxState) (x y w h : ℚ)
  | fillText (st : CtxState) (text : List Char) (x y : ℚ)
  | drawImage (st : CtxState) (src : String) (x y w h : ℚ)
deriving DecidableEq

/-- A canvas 2D context: current state, save/restore stack, and the trace
of commands issued so far. -/
structure Ctx where
  st : CtxState
  stack : List CtxState
  trace : List DrawOp
deriving DecidableEq

/-- A fresh off-screen canvas context. -/
def Ctx.fresh : Ctx := ⟨CtxState.init, [], []⟩

/-- `ctx.save()`. -/
def Ctx.save (c : Ctx) : Ctx := { c with stack := c.st :: c.stack }

/-- `ctx.restore()` (no-op on an empty stack). -/
def Ctx.restoreCtx (c : Ctx) : Ctx :=
  match c.stack with
  | [] => c
  | s :: rest => { c with st := s, stack := rest }

/-- `ctx.translate(x, y)`. -/
def Ctx.translate (c : Ctx) (x y : ℚ) : Ctx :=
  { c with st := { c.st with transform := Mat.mul c.st.transform ⟨1, 0, 0, 1, x, y⟩ } }

/-- `ctx.rotate(rad)`; the engine's cosine/sine come from `jm`. -/
def Ctx.rotateCtx (jm : JsMath) (c : Ctx) (rad : ℚ) : Ctx :=
  let rotM : Mat := ⟨jm.cos rad, jm.sin rad, -(jm.sin rad), jm.cos rad, 0, 0⟩
  { c with st := { c.st with transform := Mat.mul c.st.transform rotM } }

/-- `ctx.scale(sx, sy)`. -/
def Ctx.scaleCtx (c : Ctx) (sx sy : ℚ) : Ctx :=
  { c with st := { c.st with transform := Mat.mul c.st.transform ⟨sx, 0, 0, sy, 0, 0⟩ } }

/-- `ctx.fillStyle = v`. -/
def Ctx.setFillStyle (c : Ctx) (v : String) : Ctx := { c with st := { c.st with fillStyle := v } }

/-- `ctx.font = v`. -/
def Ctx.setFont (c : Ctx) (v : String) : Ctx := { c with st := { c.st with font := v } }

/-- `ctx.textAlign = v`. -/
def Ctx.setTextAlign (c : Ctx) (v : String) : Ctx := { c with st := { c.st with textAlign := v } }

/-- `ctx.textBaseline = v`. -/
def Ctx.setTextBaseline (c : Ctx) (v : String) : Ctx :=
  { c with st := { c.st with textBaseline := v } }

/-- `ctx.globalAlpha = v`. -/
def Ctx.setGlobalAlpha (c : Ctx) (v : ℚ) : Ctx := { c with st := { c.st with globalAlpha := v } }

/-- `ctx.putImageData(ras, dx, dy)`. -/
def Ctx.putImage (c : Ctx) (ras : Raster) (dx dy : ℚ) : Ctx :=
  { c with trace := c.trace ++ [DrawOp.putImageData ras dx dy] }

/-- `ctx.fillRect(x, y, w, h)`. -/
def Ctx.fillRect (c : Ctx) (x y w h : ℚ) : Ctx :=
  { c with trace := c.trace ++ [DrawOp.fillRect c.st x y w h] }

/-- `ctx.fillText(text, x, y)`. -/
def Ctx.fillText (c : Ctx) (text : List Char) (x y : ℚ) : Ctx :=
  { c with trace := c.trace ++ [DrawOp.fillText c.st text x y] }

/-- `ctx.drawImage(img, x, y, w, h)` for an image with source `src`. -/
def Ctx.drawImage (c : Ctx) (src : String) (x y w h : ℚ) : Ctx :=
  { c with trace := c.trace ++ [DrawOp.drawImage c.st src x y w h] }

/-- The CSS font shorthand built by the source:
`${weight} ${size}px ${family}`. -/
def mkFont (weight : String) (size : ℚ) (family : String) : String :=
  weight ++ " " ++ toString size ++ "px " ++ family

/-- A decoded `HTMLImageElement` in one of the cached maps: its source URL
and its `complete` flag. -/
structure Img where
  src : String
  complete : Bool
deriving DecidableEq

/-- A cached decoded-raster map (`stickerImagesRef` /
`replacementImagesRef`), keyed by entity identity. -/
def ImgCache : Type := List (ℕ × Img)

/-- `map.get(id)`. -/
def cacheGet (m : ImgCache) (i : ℕ) : Option Img :=
  match m.find? (fun p => p.1 = i) with
  | some p => some p.2
  | none => none

/-- The width (as doubles/rationals) measured by `ctx.measureText` is a
function of the current font and the text; kept uninterpreted. -/
def MeasureFn : Type := String → List Char → ℚ

/-! ## Export (`handleRestore`) -/

/-- One `generateContent` request: the PNG bytes of the canvas so far are
a function of the command trace, and the instruction text carries the
region rectangle and the user prompt. -/
structure AiRequest where
  image : List DrawOp
  x : ℚ
  y : ℚ
  w : ℚ
  h : ℚ
  prompt : String

/-- An inline image payload of a response part. -/
structure AiPayload where
  mime : String
  data : String
deriving DecidableEq

/-- Outcome of one AI call: the call threw (network or API error), or it
returned with `candidates?.[0]?.content?.parts` either absent (`none`) or
a list of parts, each possibly carrying `inlineData`. -/
inductive AiResult where
  | threw
  | ok (parts? : Option (List (Option AiPayload)))
deriving DecidableEq

/-- The external AI generation collaborator. -/
def AiOracle : Type := AiRequest → AiResult

/-- First part carrying `inlineData` (the drawn-then-`break` part). -/
def firstPayload : List (Option AiPayload) → Option AiPayload
  | [] => none
  | some p :: _ => some p
  | none :: rest => firstPayload rest

/-- `true` iff the AI call contributes no image: it threw, returned no
parts, or returned parts without any `inlineData`. -/
def aiFailed : AiResult → Bool
  | .threw => true
  | .ok none => true
  | .ok (some ps) => (firstPayload ps).isNone

/-- The text-region pass of `handleRestore`: rotate about the center, fill
the background rectangle, and (when a replacement value exists) draw the
wrapped, vertically centered lines. -/
def restoreTextSel (jm : JsMath) (measure : MeasureFn) (reps : List (ℕ × String))
    (c : Ctx) (sel : SelectionArea) : Ctx :=
  let newText := lookupRep reps sel.id
  let c := c.save
  let centerX := sel.x + sel.w / 2
  let centerY := sel.y + sel.h / 2
  let c := c.translate centerX centerY
  let c :=
    match sel.textRotation with
    | some r => if r = 0 then c else c.rotateCtx jm ((r * jm.pi) / 180)
    | none => c
  let c := c.setFillStyle (jsOrS sel.textBgColor "#ffffff")
  let c := c.fillRect (-(sel.w / 2)) (-(sel.h / 2)) sel.w sel.h
  let c :=
    if newText ≠ "" then
      let c := c.setFillStyle (jsOrS sel.textColor "#000000")
      let fsz := jsOrQ sel.fontSize 32
      let c := c.setFont (mkFont (jsOrS sel.fontWeight "normal") fsz
        (jsOrS sel.fontFamily "Noto Sans KR"))
      let c := c.setTextBaseline "middle"
      let c := c.setTextAlign (jsOrS sel.textAlign "center")
      let lines := wrapTextWithNewlines (measure c.st.font) (sel.w - 4) newText.data
      let lineHeight := fsz * (12/10)
      let totalHeight := (lines.length : ℚ) * lineHeight
      let startY := -(totalHeight / 2) + lineHeight / 2
      let textX : ℚ :=
        if sel.textAlign = some "left" then -(sel.w / 2) + 2
        else if sel.textAlign = some "right" then sel.w / 2 - 2
        else 0
      (lines.foldl (fun (acc : Ctx × ℚ) line =>
        (acc.1.fillText line textX acc.2, acc.2 + lineHeight)) (c, startY)).1
    else c
  c.restoreCtx

/-- The ai-image pass of `handleRestore` for one region: skip when the
prompt is empty or no API key resolves; otherwise call the collaborator
with the current composite and draw the first returned payload into the
region's rectangle.  A thrown error or an empty result leaves the canvas
untouched. -/
def restoreAiSel (apiKey : Option String) (oracle : AiOracle) (reps : List (ℕ × String))
    (c : Ctx) (sel : SelectionArea) : Ctx :=
  let prompt := lookupRep reps sel.id
  if prompt = "" then c
  else
    match apiKey with
    | none => c
    | some _ =>
      match oracle ⟨c.trace, sel.x, sel.y, sel.w, sel.h, prompt⟩ with
      | .threw => c
      | .ok none => c
      | .ok (some ps) =>
        match firstPayload ps with
        | none => c
        | some p =>
          c.drawImage ("data:" ++ p.mime ++ ";base64," ++ p.data) sel.x sel.y sel.w sel.h

/-- The image-replace pass of `handleRestore` for one region: skip without
an uploaded replacement; otherwise flash the stored background color over
the rectangle and, when the decoded raster is cached and complete, draw it
rotated/flipped about the rectangle center. -/
def restoreImageReplaceSel (jm : JsMath) (replImgs : ImgCache) (c : Ctx)
    (sel : SelectionArea) : Ctx :=
  match sel.replacementImage with
  | none => c
  | some u =>
    if u = "" then c
    else
      let c := c.setFillStyle (jsOrS sel.textBgColor "#ffffff")
      let c := c.fillRect sel.x sel.y sel.w sel.h
      match cacheGet replImgs sel.id with
      | none => c
      | some img =>
        if img.complete then
          let c := c.save
          let c := c.translate (sel.x + sel.w / 2) (sel.y + sel.h / 2)
          let c :=
            match sel.imageRotation with
            | some r => if r = 0 then c else c.rotateCtx jm ((r * jm.pi) / 180)
            | none => c
          let c := c.scaleCtx (if jsOrB sel.imageFlipX then -1 else 1)
            (if jsOrB sel.imageFlipY then -1 else 1)
          let c := c.drawImage img.src (-(sel.w / 2)) (-(sel.h / 2)) sel.w sel.h
          c.restoreCtx
        else c

/-- The sticker pass of `handleRestore` for one sticker. -/
def restoreSticker (jm : JsMath) (stkImgs : ImgCache) (c : Ctx) (stk : Sticker) : Ctx :=
  match cacheGet stkImgs stk.id with
  | none => c
  | some img =>
    if img.complete then
      let c := c.save
      let c := c.setGlobalAlpha stk.opacity
      let c := c.translate stk.x stk.y
      let c := c.rotateCtx jm ((stk.rotation * jm.pi) / 180)
      let sX : ℚ := if stk.flipX then -1 else 1
      let c := c.scaleCtx (sX * stk.scale) stk.scale
      let c := c.drawImage img.src (-(stk.w / 2)) (-(stk.h / 2)) stk.w stk.h
      c.restoreCtx
    else c

/-- The custom-text pass of `handleRestore` for one overlay text: advance
segment by segment, resetting the column and advancing a line on a truthy
`newLine` flag. -/
def restoreCustomText (jm : JsMath) (measure : MeasureFn) (c : Ctx) (txt : CustomText) : Ctx :=
  let c := c.save
  let c := c.setGlobalAlpha txt.opacity
  let c := c.translate txt.x txt.y
  let c := c.rotateCtx jm ((txt.rotation * jm.pi) / 180)
  let c := c.setFont (mkFont txt.fontWeight (txt.fontSize * txt.scale)
    (jsOrS txt.fontFamily "Noto Sans KR"))
  let lineHeight := txt.fontSize * txt.scale * (12/10)
  (txt.segments.foldl (fun (acc : Ctx × ℚ × ℚ) seg =>
    let pos : ℚ × ℚ :=
      if jsOrB seg.newLine then (0, acc.2.2 + lineHeight) else (acc.2.1, acc.2.2)
    let c1 := (acc.1.setFillStyle seg.color).fillText seg.text.data pos.1 pos.2
    (c1, pos.1 + measure c1.st.font seg.text.data, pos.2)) (c, 0, 0)).1.restoreCtx

/-- `handleRestore`: the export routine.  Returns `none` when the guard
(`!originalImageData || selections.length === 0`) aborts, otherwise the
command trace drawn onto a fresh off-screen canvas: the pristine raster,
then every text region, then every ai-image region (awaited serially,
consulting the collaborator), then every image-replace region, then every
sticker, then every custom text. -/
def handleRestore (jm : JsMath) (measure : MeasureFn) (original? : Option Raster)
    (scene : HistoryState) (replImgs stkImgs : ImgCache) (apiKey : Option String)
    (oracle : AiOracle) : Option (List DrawOp) :=
  match original? with
  | none => none
  | some original =>
    if scene.selections = [] then none
    else
      let c := Ctx.fresh.putImage original 0 0
      let textSels := scene.selections.filter (fun s => s.type = SelectionType.text)
      let aiSels := scene.selections.filter (fun s => s.type = SelectionType.imageAi)
      let replSels := scene.selections.filter (fun s => s.type = SelectionType.imageReplace)
      let c := textSels.foldl (restoreTextSel jm measure scene.replacements) c
      let c := aiSels.foldl (restoreAiSel apiKey oracle scene.replacements) c
      let c := replSels.foldl (restoreImageReplaceSel jm replImgs) c
      let c := scene.stickers.foldl (restoreSticker jm stkImgs) c
      let c := scene.customTexts.foldl (restoreCustomText jm measure) c
      some c.trace

/-! ## Concrete values used by witnesses and counterexamples -/

/-- A concrete stand-in for the runtime's `Math` bundle. -/
def jmEx : JsMath := ⟨fun _ => 1, fun _ => 0, 157/50⟩

/-- A measurement function that measures every string as width 0. -/
def measure0 : MeasureFn := fun _ _ => 0

/-- A raster filled with one color. -/
def constRaster (w h : ℕ) (p : Rgb) : Raster :=
  ⟨w, h, List.replicate h (List.replicate w p)⟩

/-- A small all-white raster. -/
def ras1 : Raster := constRaster 4 4 ⟨255, 255, 255⟩

/-- A concrete text selection region. -/
def textSelEx : SelectionArea :=
  { id := 3, x := 0, y := 0, w := 30, h := 20, type := SelectionType.text }

/-- A concrete rotated text region. -/
def selEx : SelectionArea :=
  { id := 1, x := 0, y := 0, w := 4, h := 2, type := SelectionType.text,
    textRotation := some 45 }

/-- A small unrotated region used to fill a scene to capacity. -/
def selSmall : SelectionArea :=
  { id := 0, x := 0, y := 0, w := 20, h := 20, type := SelectionType.text }

/-- An editor state already holding `MAX_SELECTIONS` regions. -/
def stTen : EditorState :=
  ⟨[], -1, ⟨List.replicate 10 selSmall, [], [], []⟩⟩

/-- A concrete ai-image region with a prompt. -/
def aiSelEx : SelectionArea :=
  { id := 7, x := 1, y := 1, w := 2, h := 2, type := SelectionType.imageAi }

/-- A scene holding one ai-image region whose prompt is set. -/
def sceneAiEx : HistoryState := ⟨[aiSelEx], [(7, "draw a cat")], [], []⟩

/-- A scene holding one text region with a replacement value. -/
def sceneTextEx : HistoryState := ⟨[textSelEx], [(3, "hello")], [], []⟩

/-- A collaborator answering with payload `AAA`. -/
def oracleA : AiOracle := fun _ => .ok (some [some ⟨"image/png", "AAA"⟩])

/-- A collaborator answering with payload `BBB`. -/
def oracleB : AiOracle := fun _ => .ok (some [some ⟨"image/png", "BBB"⟩])

/-- An ai-image region whose generation call will fail. -/
def badSelEx : SelectionArea :=
  { id := 9, x := 2, y := 2, w := 3, h := 3, type := SelectionType.imageAi }

/-- An ai-image region whose generation call will succeed. -/
def goodSelEx : SelectionArea :=
  { id := 11, x := 5, y := 5, w := 2, h := 2, type := SelectionType.imageAi }

/-- A concrete sticker. -/
def stickerEx : Sticker := ⟨21, "stk.png", 3, 3, 2, 2, 0, false, 1, 1⟩

/-- A concrete custom text. -/
def ctextEx : CustomText := ⟨31, [⟨"hi", "#ff0000", none⟩], 1, 1, 10, 1, 1, "normal", 0, none⟩

/-- A full scene: a text region, a failing ai region, a succeeding ai
region, a sticker and a custom text. -/
def sceneC9 : HistoryState :=
  ⟨[textSelEx, badSelEx, goodSelEx], [(9, "bad"), (11, "good")], [stickerEx], [ctextEx]⟩

/-- The collaborator for the `sceneC9` scenario: throws on the failing
region's prompt, succeeds otherwise. -/
def oracle9 : AiOracle := fun req =>
  if req.prompt = "bad" then .threw else .ok (some [some ⟨"image/png", "GOOD"⟩])

/-- The sticker cache for the `sceneC9` scenario. -/
def stkCache9 : ImgCache := [(21, ⟨"stk.png", true⟩)]

/-- An adversarial (non-monotone) measurement function. -/
def measureSpike : List Char → ℚ := fun l => if l = ['a', 'b'] then 100 else 1

/-! ## C2: commit after undo truncates -/

/-- C2: from history `[A, B, C]` with the cursor on `C`, two `undo`s
followed by committing a new snapshot `D` yield history `[A, D]` with the
cursor at index 1, and `redo` is then a no-op; in general `addToHistory`
discards everything past the cursor, appends the snapshot read by its
closure, and moves the cursor to the new tail. -/
theorem c2_commit_after_undo_truncates :
    (∀ a b c d : HistoryState,
      applyOps ⟨[a, b, c], 2, c⟩ [.undoOp, .undoOp, .commit d] = ⟨[a, d], 1, d⟩ ∧
      redo (⟨[a, d], 1, d⟩ : EditorState) = ⟨[a, d], 1, d⟩) ∧
    (∀ st : EditorState,
      (addToHistory st).history
          = st.history.take (st.historyIndex + 1).toNat ++ [st.scene] ∧
      (addToHistory st).historyIndex = ((addToHistory st).history.length : ℤ) - 1) :=
  by
  refine ⟨fun a b c d => ⟨?_, ?_⟩, fun st => ⟨rfl, rfl⟩⟩
  · simp [applyOps, applyOp, undo, redo, addToHistory, List.getD]
  · simp [redo]

/-! ## C3: the cursor invariant -/

/-- Every single edit operation preserves the history invariant. -/
theorem applyOp_preserves_histInv (st : EditorState) (op : EditOp) (h : histInv st) :
    histInv (applyOp st op) := by
  cases op with
  | commit a =>
    simp only [applyOp, addToHistory, histInv] at *
    right
    constructor
    · simp
    · simp
  | undoOp =>
    simp only [applyOp, undo] at *
    split
    · rename_i hpos
      right
      rcases h with ⟨hnil, hidx⟩ | ⟨h0, hlen⟩
      · omega
      · simp only []
        omega
    · exact h
  | redoOp =>
    simp only [applyOp, redo] at *
    split
    · rename_i hlt
      right
      rcases h with ⟨hnil, hidx⟩ | ⟨h0, hlen⟩
      · exfalso
        rw [hnil] at hlt
        simp at hlt
        omega
      · simp only []
        omega
    · exact h

/-- Every sequence of edit operations preserves the history invariant. -/
theorem applyOps_preserves_histInv (ops : List EditOp) :
    ∀ st : EditorState, histInv st → histInv (applyOps st ops) := by
  induction ops with
  | nil => intro st h; exact h
  | cons op rest ih =>
    intro st h
    exact ih (applyOp st op) (applyOp_preserves_histInv st op h)

/-- C3: from the empty history, after any sequence of commit/undo/redo
operations the cursor is a valid index into the history list or `-1`
exactly when the list is empty; `undo` changes the state exactly when the
cursor is positive and `redo` exactly when the cursor is before the
tail. -/
theorem c3_cursor_invariant :
    (∀ (ops : List EditOp) (a : HistoryState), histInv (applyOps (initEditor a) ops)) ∧
    (∀ st : EditorState, undo st = st ↔ ¬ 0 < st.historyIndex) ∧
    (∀ st : EditorState, redo st = st ↔ ¬ st.historyIndex < (st.history.length : ℤ) - 1) :=
  by
  refine ⟨fun ops a => applyOps_preserves_histInv ops (initEditor a) (Or.inl ⟨rfl, rfl⟩),
    fun st => ⟨?_, ?_⟩, fun st => ⟨?_, ?_⟩⟩
  · intro h hpos
    have h2 : (undo st).historyIndex = st.historyIndex := by rw [h]
    simp [undo, hpos] at h2
  · intro hnot
    simp [undo, hnot]
  · intro h hlt
    have h2 : (redo st).historyIndex = st.historyIndex := by rw [h]
    simp [redo, hlt] at h2
  · intro hnot
    simp [redo, hnot]

/-! ## C10 and C8: text-wrap lemmas -/

/-- `splitNl` never returns an empty list of pieces. -/
theorem splitNl_ne_nil (t : List Char) : splitNl t ≠ [] := by
  cases t with
  | nil => simp [splitNl]
  | cons c rest =>
    by_cases hc : c = '\n'
    · simp [splitNl, hc]
    · simp only [splitNl, hc, if_false]
      cases splitNl rest <;> simp

/-- Concatenating the pieces of `splitNl` recovers the text without its
newline characters. -/
theorem join_splitNl (t : List Char) : (splitNl t).flatten = t.filter (fun ch => ch != '\n') := by
  induction t with
  | nil => simp [splitNl]
  | cons c rest ih =>
    by_cases hc : c = '\n'
    · subst hc
      simp [splitNl, ih]
    · simp only [splitNl, hc, if_false]
      cases hsp : splitNl rest with
      | nil => exact absurd hsp (splitNl_ne_nil rest)
      | cons l ls =>
        rw [hsp] at ih
        simp only [List.flatten_cons, List.filter_cons]
        simp only [List.flatten_cons] at ih
        simp [hc, ih]

/-- The greedy wrap loop never loses characters: the finished lines plus
the running line always concatenate to the input processed so far. -/
theorem wrapStep_foldl_join (measure : List Char → ℚ) (mw : ℚ) (para : List Char) :
    ∀ (lines : List (List Char)) (cur : List Char),
      ((para.foldl (wrapStep measure mw) (lines, cur)).1).flatten
          ++ (para.foldl (wrapStep measure mw) (lines, cur)).2
        = lines.flatten ++ cur ++ para := by
  induction para with
  | nil => intro lines cur; simp
  | cons ch rest ih =>
    intro lines cur
    rw [List.foldl_cons]
    by_cases hcond : measure (cur ++ [ch]) > mw ∧ cur ≠ []
    · have hstep : wrapStep measure mw (lines, cur) ch = (lines ++ [cur], [ch]) := by
        simp [wrapStep, hcond]
      rw [hstep, ih]
      simp
    · have hstep : wrapStep measure mw (lines, cur) ch = (lines, cur ++ [ch]) := by
        simp only [wrapStep]
        rw [if_neg hcond]
      rw [hstep, ih]
      simp

/-- Concatenating the lines of one wrapped paragraph recovers the
paragraph. -/
theorem join_wrapParagraph (measure : List Char → ℚ) (mw : ℚ) (para : List Char) :
    (wrapParagraph measure mw para).flatten = para := by
  unfold wrapParagraph
  have h := wrapStep_foldl_join measure mw para [] []
  cases hacc : para.foldl (wrapStep measure mw) ([], []) with
  | mk lines cur =>
    rw [hacc] at h
    simp only [List.flatten_nil, List.nil_append] at h
    by_cases hcur : cur = []
    · subst hcur
      simp
      simpa using h
    · simp [hcur]
      simpa using h

/-- C10: wrapping never drops, duplicates or reorders a character:
concatenating the output lines of `wrapTextWithNewlines`, for any
measurement function and any width, yields the input text with its
newline characters removed. -/
theorem c10_wrap_preserves_characters (measure : List Char → ℚ) (mw : ℚ) (text : List Char) :
    (wrapTextWithNewlines measure mw text).flatten = text.filter (fun ch => ch != '\n') := by
  unfold wrapTextWithNewlines
  rw [← join_splitNl text]
  generalize splitNl text = ps
  induction ps with
  | nil => simp
  | cons p rest ih =>
    simp only [List.map_cons, List.flatten_cons, List.flatten_append, ih]
    by_cases hp : p = []
    · simp [hp]
    · simp [hp, join_wrapParagraph]

/-- When the measurement function is monotone under extension and the
whole paragraph fits, the greedy loop never breaks: it just accumulates
the paragraph into the running line. -/
theorem wrap_foldl_fits (measure : List Char → ℚ) (mw : ℚ) (para : List Char)
    (hm : ∀ p t, measure p ≤ measure (p ++ t)) (hfit : measure para ≤ mw) :
    ∀ (rest pre : List Char), pre ++ rest = para →
      rest.foldl (wrapStep measure mw) ([], pre) = ([], pre ++ rest) := by
  intro rest
  induction rest with
  | nil => intro pre h; simp
  | cons ch rest2 ih =>
    intro pre h
    rw [List.foldl_cons]
    have hsplit : (pre ++ [ch]) ++ rest2 = para := by
      rw [← h]; simp
    have hfitpre : measure (pre ++ [ch]) ≤ mw := by
      calc measure (pre ++ [ch]) ≤ measure ((pre ++ [ch]) ++ rest2) := hm _ _
        _ = measure para := by rw [hsplit]
        _ ≤ mw := hfit
    have hcond : ¬(measure (pre ++ [ch]) > mw ∧ pre ≠ []) := by
      intro hc
      exact absurd hfitpre (not_le.mpr hc.1)
    have hstep : wrapStep measure mw ([], pre) ch = ([], pre ++ [ch]) := by
      simp only [wrapStep]
      rw [if_neg hcond]
    rw [hstep, ih (pre ++ [ch]) hsplit]
    simp

/-- A nonempty paragraph that fits (under a monotone measurement) wraps to
itself as the single line. -/
theorem wrapParagraph_fits (measure : List Char → ℚ) (mw : ℚ) (para : List Char)
    (hm : ∀ p t, measure p ≤ measure (p ++ t)) (hfit : measure para ≤ mw)
    (hne : para ≠ []) : wrapParagraph measure mw para = [para] := by
  unfold wrapParagraph
  rw [wrap_foldl_fits measure mw para hm hfit para [] rfl]
  simp [hne]

/-- Rejoining the pieces of `splitNl` with explicit line breaks recovers
the original text. -/
theorem joinNl_splitNl (t : List Char) : joinNl (splitNl t) = t := by
  induction t with
  | nil => simp [splitNl, joinNl]
  | cons c rest ih =>
    by_cases hc : c = '\n'
    · subst hc
      simp only [splitNl, if_true]
      cases hsp : splitNl rest with
      | nil => exact absurd hsp (splitNl_ne_nil rest)
      | cons l ls =>
        rw [hsp] at ih
        simp [joinNl, ih]
    · simp only [splitNl, hc, if_false]
      cases hsp : splitNl rest with
      | nil => exact absurd hsp (splitNl_ne_nil rest)
      | cons l ls =>
        rw [hsp] at ih
        cases ls with
        | nil => simp [joinNl] at ih ⊢; exact ih
        | cons l2 ls2 => simp [joinNl] at ih ⊢; rw [ih]

/-- C8 (amended): for a measurement function that is monotone under
appending (as real text metrics are), a text each of whose
explicit-break-separated lines measures at most `maxWidth` — i.e. the
rejoining of already-wrapped lines — wraps back to exactly those lines. -/
theorem c8_wrap_idempotent_of_monotone (measure : List Char → ℚ) (mw : ℚ) (text : List Char)
    (hm : ∀ p t, measure p ≤ measure (p ++ t))
    (hfit : ∀ l ∈ splitNl text, measure l ≤ mw) :
    joinNl (splitNl text) = text ∧ wrapTextWithNewlines measure mw text = splitNl text := by
  refine ⟨joinNl_splitNl text, ?_⟩
  unfold wrapTextWithNewlines
  generalize hps : splitNl text = ps at hfit
  clear hps
  induction ps with
  | nil => simp
  | cons p rest ih =>
    simp only [List.map_cons, List.flatten_cons]
    rw [ih (fun l hl => hfit l (List.mem_cons_of_mem _ hl))]
    by_cases hp : p = []
    · subst hp
      simp
    · rw [if_neg hp, wrapParagraph_fits measure mw p hm (hfit p (List.mem_cons_self _ _)) hp]
      simp

/-- C8 counterexample: the claim quantifies over every measurement
function, but for a non-monotone measurement a text whose explicit-break
lines all fit still wraps differently: with `measureSpike` (`"ab"`
measures 100, everything else 1) the single line `"abc"` of `"abc"`
measures 1 ≤ 10, yet rewrapping splits it. -/
theorem c8_counterexample :
    (∀ l ∈ splitNl ['a', 'b', 'c'], measureSpike l ≤ 10) ∧
    wrapTextWithNewlines measureSpike 10 ['a', 'b', 'c'] ≠ splitNl ['a', 'b', 'c'] := by
  decide

/-- C8 witness: with the monotone length measurement and width 5, the
two-line text `"ab\nc"` rewraps to exactly its own lines. -/
theorem c8_witness :
    (∀ l ∈ splitNl ['a', 'b', '\n', 'c'], ((l.length : ℚ)) ≤ 5) ∧
    wrapTextWithNewlines (fun l => (l.length : ℚ)) 5 ['a', 'b', '\n', 'c']
      = splitNl ['a', 'b', '\n', 'c'] :=
  ⟨by decide, (c8_wrap_idempotent_of_monotone (fun l => (l.length : ℚ)) 5
      ['a', 'b', '\n', 'c'] (fun p t => by simp) (by decide)).2⟩

/-! ## C5: the font-size formula -/

/-- `Math.round` of an integer is itself. -/
theorem jsRound_int (n : ℤ) : jsRound (n : ℚ) = n := by
  unfold jsRound
  rw [Int.floor_int_add]
  norm_num

/-- C5 (amended): for every rectangle with integer coordinates fully
inside raster bounds, `analyzeTextAreaFast` returns a font size equal to
`clamp(round(h * 0.7), 12, 200)`, a value in `[12, 200]`. -/
theorem c5_fontSize_formula (jm : JsMath) (ras : Raster) (x y w h : ℤ)
    (hx : 0 ≤ x) (hy : 0 ≤ y) (hw : 1 ≤ w) (hh : 1 ≤ h)
    (hxw : x + w ≤ (ras.width : ℤ)) (hyh : y + h ≤ (ras.height : ℤ)) :
    (analyzeTextAreaFast jm (some ras) (x : ℚ) (y : ℚ) (w : ℚ) (h : ℚ)).fontSize
        = max 12 (min 200 (jsRound ((h : ℚ) * (7/10)))) ∧
    12 ≤ (analyzeTextAreaFast jm (some ras) (x : ℚ) (y : ℚ) (w : ℚ) (h : ℚ)).fontSize ∧
    (analyzeTextAreaFast jm (some ras) (x : ℚ) (y : ℚ) (w : ℚ) (h : ℚ)).fontSize ≤ 200 := by
  have hmain : (analyzeTextAreaFast jm (some ras) (x : ℚ) (y : ℚ) (w : ℚ) (h : ℚ)).fontSize
      = max 12 (min 200 (jsRound ((h : ℚ) * (7/10)))) := by
    have e1 : max 0 (min x ((ras.width : ℤ) - 1)) = x := by omega
    have e2 : max 0 (min y ((ras.height : ℤ) - 1)) = y := by omega
    have e3 : min w ((ras.width : ℤ) - x) = w := by omega
    have e4 : min h ((ras.height : ℤ) - y) = h := by omega
    have hcond : ¬(w ≤ 0 ∨ h ≤ 0) := by omega
    simp only [analyzeTextAreaFast, jsRound_int, e1, e2, e3, e4, if_neg hcond]
  refine ⟨hmain, ?_, ?_⟩ <;> rw [hmain]
  · exact le_max_left 12 _
  · have h1 : min 200 (jsRound ((h : ℚ) * (7/10))) ≤ 200 := min_le_left _ _
    omega

/-- C5 counterexample: the claim as stated quantifies over every
rectangle, but for the fractional rectangle `(0, 0.5, 20, 29.5)` — fully
inside a 30×30 raster — the code clamps `safeH` to 29 and returns font
size 20, while `clamp(round(29.5 * 0.7), 12, 200) = 21`. -/
theorem c5_counterexample :
    ((0 : ℚ) ≤ 0 ∧ (0 : ℚ) ≤ 1/2 ∧ (0 : ℚ) < 20 ∧ (0 : ℚ) < 59/2 ∧
      (0 : ℚ) + 20 ≤ ((constRaster 30 30 ⟨255, 255, 255⟩).width : ℚ) ∧
      (1/2 : ℚ) + 59/2 ≤ ((constRaster 30 30 ⟨255, 255, 255⟩).height : ℚ)) ∧
    (analyzeTextAreaFast jmEx (some (constRaster 30 30 ⟨255, 255, 255⟩))
        0 (1/2) 20 (59/2)).fontSize
      ≠ max 12 (min 200 (jsRound ((59/2 : ℚ) * (7/10)))) := by
  constructor
  · norm_num [constRaster]
  · have hx : jsRound (0 : ℚ) = 0 := by norm_num [jsRound]
    have hy : jsRound (1/2 : ℚ) = 1 := by norm_num [jsRound]
    have hw : jsRound (20 : ℚ) = 20 := by norm_num [jsRound]
    have hh : jsRound (59/2 : ℚ) = 30 := by norm_num [jsRound]
    have hrhs : jsRound ((59/2 : ℚ) * (7/10)) = 21 := by norm_num [jsRound]
    simp only [analyzeTextAreaFast, constRaster, hx, hy, hw, hh, hrhs]
    norm_num
    have hfs : jsRound ((203 : ℚ) / 10) = 20 := by norm_num [jsRound]
    rw [hfs]
    decide

/-- C5 witness: the integer rectangle `(10, 10, 80, 40)` inside a 100×100
raster gets the claimed clamped font size (here 28). -/
theorem c5_witness :
    ((0 : ℤ) ≤ 10 ∧ (1 : ℤ) ≤ 80 ∧ (1 : ℤ) ≤ 40 ∧
      (10 : ℤ) + 80 ≤ ((constRaster 100 100 ⟨255, 255, 255⟩).width : ℤ) ∧
      (10 : ℤ) + 40 ≤ ((constRaster 100 100 ⟨255, 255, 255⟩).height : ℤ)) ∧
    (analyzeTextAreaFast jmEx (some (constRaster 100 100 ⟨255, 255, 255⟩))
        ((10 : ℤ) : ℚ) ((10 : ℤ) : ℚ) ((80 : ℤ) : ℚ) ((40 : ℤ) : ℚ)).fontSize
      = max 12 (min 200 (jsRound (((40 : ℤ) : ℚ) * (7/10)))) :=
  ⟨by decide,
    (c5_fontSize_formula jmEx (constRaster 100 100 ⟨255, 255, 255⟩) 10 10 80 40
      (by decide) (by decide) (by decide) (by decide) (by decide) (by decide)).1⟩

/-! ## C6: the low-contrast fallback -/

/-- When every sample equals the background color, the max-distance fold
stays at distance 0 with the initial color. -/
theorem textColor_fold_const (bgRgb : Rgb) (ss : List Rgb) (hss : ∀ s ∈ ss, s = bgRgb) :
    ss.foldl (fun (acc : ℕ × String) s =>
      let diff := absDiff s.r bgRgb.r + absDiff s.g bgRgb.g + absDiff s.b bgRgb.b
      if diff > acc.1 then (diff, rgbToHex s.r s.g s.b) else acc) (0, "#000000")
      = (0, "#000000") := by
  induction ss with
  | nil => rfl
  | cons s rest ih =>
    have hs : s = bgRgb := hss s (List.mem_cons_self _ _)
    subst hs
    rw [List.foldl_cons]
    have hd : absDiff s.r s.r + absDiff s.g s.g + absDiff s.b s.b = 0 := by
      simp [absDiff]
    simp only [hd]
    rw [if_neg (by omega)]
    exact ih (fun t ht => hss t (List.mem_cons_of_mem _ ht))

/-- C6: whenever all 5 circle samples equal the background color, the
detected text color falls back to black when the background luminance
exceeds 1/2 and to white otherwise. -/
theorem c6_low_contrast_fallback (jm : JsMath) (ras : Raster) (x y w h : ℚ)
    (bg : String) (bgRgb : Rgb) (hbg : hexToRgb bg = some bgRgb)
    (hsamp : ∀ s ∈ textSamples jm ras x y w h, s = bgRgb) :
    detectTextColorFast jm ras x y w h bg =
      if getLuminance bgRgb.r bgRgb.g bgRgb.b > 1/2 then "#000000" else "#ffffff" := by
  unfold detectTextColorFast
  rw [hbg]
  simp only [textColor_fold_const bgRgb (textSamples jm ras x y w h) hsamp]
  rw [if_pos (by norm_num)]

/-- Every pixel read of an all-black raster is black (in bounds it is the
stored pixel, out of bounds the transparent-black default). -/
theorem getPixel_constBlack (w h : ℕ) (a b : ℤ) :
    getPixel (constRaster w h ⟨0, 0, 0⟩) a b = ⟨0, 0, 0⟩ := by
  unfold getPixel constRaster
  split
  · simp only [List.getD_eq_getElem?_getD, List.getElem?_replicate]
    by_cases hb : b.toNat < h
    · simp only [if_pos hb, Option.getD_some, List.getElem?_replicate]
      by_cases ha : a.toNat < w
      · simp [ha]
      · simp [ha]
    · simp [hb]
  · rfl

/-- All 5 circle samples of an all-black raster are black, wherever the
trig approximations place them. -/
theorem textSamples_constBlack (jm : JsMath) (w h : ℕ) (x y rw rh : ℚ) :
    ∀ s ∈ textSamples jm (constRaster w h ⟨0, 0, 0⟩) x y rw rh, s = (⟨0, 0, 0⟩ : Rgb) := by
  intro s hs
  simp only [textSamples, List.mem_map, List.mem_range] at hs
  obtain ⟨i, _, rfl⟩ := hs
  exact getPixel_constBlack w h _ _

/-- C6 witness: an all-black raster with background `#000000` (luminance
0 ≤ 1/2) falls back to white. -/
theorem c6_witness :
    hexToRgb "#000000" = some ⟨0, 0, 0⟩ ∧
    (∀ s ∈ textSamples jmEx (constRaster 8 8 ⟨0, 0, 0⟩) 1 1 4 4, s = (⟨0, 0, 0⟩ : Rgb)) ∧
    detectTextColorFast jmEx (constRaster 8 8 ⟨0, 0, 0⟩) 1 1 4 4 "#000000" =
      if getLuminance 0 0 0 > 1/2 then "#000000" else "#ffffff" :=
  ⟨by decide, textSamples_constBlack jmEx 8 8 1 1 4 4,
    c6_low_contrast_fallback jmEx (constRaster 8 8 ⟨0, 0, 0⟩) 1 1 4 4 "#000000" ⟨0, 0, 0⟩
      (by decide) (textSamples_constBlack jmEx 8 8 1 1 4 4)⟩

/-! ## C7: the region center always hits -/

/-- C7: for every selection region with positive width and height (and
hence for every rotation angle stored on it), the hit test succeeds at
the region's center: the translated, inversely rotated point is the local
origin, which lies inside `[-w/2, w/2] × [-h/2, h/2]`. -/
theorem c7_center_always_hits (jm : JsMath) (sel : SelectionArea)
    (hw : 0 < sel.w) (hh : 0 < sel.h) :
    selectionHitTest jm sel (sel.x + sel.w / 2) (sel.y + sel.h / 2) = true := by
  simp only [selectionHitTest, sub_self, zero_mul, sub_zero, zero_add, add_zero,
    decide_eq_true_eq]
  refine ⟨by linarith, by linarith, by linarith, by linarith⟩

/-- C7 witness: the concrete region `selEx` (rotated by 45 degrees) is hit
at its center. -/
theorem c7_witness :
    (0 : ℚ) < selEx.w ∧ (0 : ℚ) < selEx.h ∧
    selectionHitTest jmEx selEx (selEx.x + selEx.w / 2) (selEx.y + selEx.h / 2) = true :=
  ⟨by decide, by decide, c7_center_always_hits jmEx selEx (by decide) (by decide)⟩

/-! ## C4: region-creation admission control -/

/-- C4: the pointer-up creation branch adds a region and pushes a history
entry exactly when both drag dimensions exceed 10 and fewer than
`MAX_SELECTIONS` regions exist; otherwise it silently leaves the state
unchanged.  In particular an 11th region is never created. -/
theorem c4_creation_admission (jm : JsMath) (ras? : Option Raster) (autoAnalyze : Bool)
    (mode : SelectionType) (newId : ℕ) (sx sy x y : ℚ) (st : EditorState) :
    (¬(|x - sx| > 10 ∧ |y - sy| > 10 ∧ st.scene.selections.length < MAX_SELECTIONS) →
      onMouseUpCreate jm ras? autoAnalyze mode newId sx sy x y st = st) ∧
    ((|x - sx| > 10 ∧ |y - sy| > 10 ∧ st.scene.selections.length < MAX_SELECTIONS) →
      (onMouseUpCreate jm ras? autoAnalyze mode newId sx sy x y st).scene.selections.length
          = st.scene.selections.length + 1 ∧
      (onMouseUpCreate jm ras? autoAnalyze mode newId sx sy x y st).history
          = st.history.take (st.historyIndex + 1).toNat ++ [st.scene]) ∧
    (st.scene.selections.length = MAX_SELECTIONS →
      onMouseUpCreate jm ras? autoAnalyze mode newId sx sy x y st = st) := by
  refine ⟨?_, ?_, ?_⟩
  · intro hcond
    simp only [onMouseUpCreate]
    rw [if_neg hcond]
  · intro hcond
    simp only [onMouseUpCreate]
    rw [if_pos hcond]
    constructor
    · simp
    · simp [addToHistory]
  · intro hfull
    simp only [onMouseUpCreate]
    rw [if_neg (by simp [hfull, MAX_SELECTIONS])]

/-- C4 witness: from an empty scene a 20×20 drag creates a region and a
history entry; with 10 regions already present the same drag changes
nothing. -/
theorem c4_witness :
    ((|(20 : ℚ) - 0| > 10 ∧ |(20 : ℚ) - 0| > 10 ∧
        (initEditor default).scene.selections.length < MAX_SELECTIONS) ∧
      (onMouseUpCreate jmEx none false SelectionType.text 1 0 0 20 20
          (initEditor default)).scene.selections.length
        = (initEditor default).scene.selections.length + 1) ∧
    (stTen.scene.selections.length = MAX_SELECTIONS ∧
      onMouseUpCreate jmEx none false SelectionType.text 1 0 0 20 20 stTen = stTen) :=
  ⟨⟨by norm_num [initEditor, MAX_SELECTIONS, default, HistoryState.selections],
    ((c4_creation_admission jmEx none false SelectionType.text 1 0 0 20 20
        (initEditor default)).2.1 (by norm_num [initEditor, MAX_SELECTIONS, default, HistoryState.selections])).1⟩,
    ⟨by decide,
      (c4_creation_admission jmEx none false SelectionType.text 1 0 0 20 20 stTen).2.2
        (by decide)⟩⟩

/-! ## C1: export purity -/

/-- An ai-image region with an empty prompt is skipped without consulting
the collaborator. -/
theorem restoreAiSel_empty_prompt (k : Option String) (o : AiOracle)
    (reps : List (ℕ × String)) (c : Ctx) (sel : SelectionArea)
    (h : lookupRep reps sel.id = "") : restoreAiSel k o reps c sel = c := by
  simp [restoreAiSel, h]

/-- When every ai-image region in the list has an empty prompt, the
ai-image pass never consults the collaborator: its result is the same for
any two collaborators. -/
theorem aiFold_oracle_irrelevant (k : Option String) (o1 o2 : AiOracle)
    (reps : List (ℕ × String)) :
    ∀ (ais : List SelectionArea) (c : Ctx),
      (∀ sel ∈ ais, lookupRep reps sel.id = "") →
      ais.foldl (restoreAiSel k o1 reps) c = ais.foldl (restoreAiSel k o2 reps) c := by
  intro ais
  induction ais with
  | nil => intro c _; rfl
  | cons a rest ih =>
    intro c h
    rw [List.foldl_cons, List.foldl_cons,
      restoreAiSel_empty_prompt k o1 reps c a (h a (List.mem_cons_self _ _)),
      restoreAiSel_empty_prompt k o2 reps c a (h a (List.mem_cons_self _ _))]
    exact ih c (fun s hs => h s (List.mem_cons_of_mem _ hs))

/-- C1 counterexample: the claim as stated makes export a function of the
raster and the scene snapshot alone, even with ai-image regions; but two
export runs over the same raster, snapshot, caches and key differ when
the AI collaborator answers differently, so the collaborator's responses
are a genuine additional input. -/
theorem c1_counterexample :
    handleRestore jmEx measure0 (some ras1) sceneAiEx [] [] (some "key") oracleA
      ≠ handleRestore jmEx measure0 (some ras1) sceneAiEx [] [] (some "key") oracleB := by
  decide

/-- C1 (amended): export is a deterministic pure function of the raster,
the scene snapshot, the caches, the API key and the collaborator's
responses; and whenever no ai-image region carries a nonempty prompt the
collaborator is never consulted, so export is a pure function of raster
and snapshot alone. -/
theorem c1_export_pure_function (jm : JsMath) (measure : MeasureFn)
    (original? : Option Raster) (scene : HistoryState) (replImgs stkImgs : ImgCache)
    (apiKey : Option String)
    (hnoai : ∀ sel ∈ scene.selections,
      sel.type = SelectionType.imageAi → lookupRep scene.replacements sel.id = "") :
    ∀ o1 o2 : AiOracle,
      handleRestore jm measure original? scene replImgs stkImgs apiKey o1
        = handleRestore jm measure original? scene replImgs stkImgs apiKey o2 := by
  intro o1 o2
  cases original? with
  | none => rfl
  | some original =>
    by_cases hsel : scene.selections = []
    · simp [handleRestore, hsel]
    · simp only [handleRestore, if_neg hsel]
      rw [aiFold_oracle_irrelevant apiKey o1 o2 scene.replacements
        (scene.selections.filter (fun s => s.type = SelectionType.imageAi)) _
        (fun s hs => by
          rw [List.mem_filter] at hs
          exact hnoai s hs.1 (by simpa using hs.2))]

/-- C1 witness: a scene holding only a text region exports identically
under two different collaborators. -/
theorem c1_witness :
    (∀ sel ∈ sceneTextEx.selections,
      sel.type = SelectionType.imageAi → lookupRep sceneTextEx.replacements sel.id = "") ∧
    handleRestore jmEx measure0 (some ras1) sceneTextEx [] [] none oracleA
      = handleRestore jmEx measure0 (some ras1) sceneTextEx [] [] none oracleB :=
  ⟨by decide,
    c1_export_pure_function jmEx measure0 (some ras1) sceneTextEx [] [] none
      (by decide) oracleA oracleB⟩

/-! ## C9: one AI failure never aborts the export -/

/-- A failing AI call (thrown error or empty result) leaves the context —
and hence the region's pixels — untouched. -/
theorem restoreAiSel_failed (k : Option String) (o : AiOracle) (reps : List (ℕ × String))
    (sel : SelectionArea)
    (hfail : ∀ tr : List DrawOp,
      aiFailed (o ⟨tr, sel.x, sel.y, sel.w, sel.h, lookupRep reps sel.id⟩) = true) :
    ∀ c : Ctx, restoreAiSel k o reps c sel = c := by
  intro c
  unfold restoreAiSel
  by_cases hp : lookupRep reps sel.id = ""
  · rw [if_pos hp]
  · rw [if_neg hp]
    cases k with
    | none => rfl
    | some key =>
      have hf := hfail c.trace
      cases hres : o ⟨c.trace, sel.x, sel.y, sel.w, sel.h, lookupRep reps sel.id⟩ with
      | threw => simp [hres]
      | ok ps? =>
        cases ps? with
        | none => simp [hres]
        | some ps =>
          rw [hres] at hf
          simp only [aiFailed, Option.isNone_iff_eq_none] at hf
          simp [hres, hf]

/-- Dropping a failing region from the middle of the ai-image pass does
not change the result: the regions before it run first, the failing one
is a no-op, and every region after it is still processed. -/
theorem aiFold_failed_middle (k : Option String) (o : AiOracle) (reps : List (ℕ × String))
    (bad : SelectionArea) (pre post : List SelectionArea)
    (hfail : ∀ tr : List DrawOp,
      aiFailed (o ⟨tr, bad.x, bad.y, bad.w, bad.h, lookupRep reps bad.id⟩) = true) :
    ∀ c : Ctx,
      (pre ++ bad :: post).foldl (restoreAiSel k o reps) c
        = (pre ++ post).foldl (restoreAiSel k o reps) c := by
  intro c
  rw [List.foldl_append, List.foldl_append, List.foldl_cons,
    restoreAiSel_failed k o reps bad hfail]

/-- C9: when the collaborator fails (throws or returns no payload) for one
ai-image region, that region's step is the identity on the canvas, and
the whole export equals the export of the same scene without that region:
every subsequent ai-image region, image-replace region, sticker and
custom text is still processed and drawn. -/
theorem c9_ai_failure_isolated (jm : JsMath) (measure : MeasureFn) (original : Raster)
    (scene : HistoryState) (replImgs stkImgs : ImgCache) (apiKey : Option String)
    (oracle : AiOracle) (pre post : List SelectionArea) (bad : SelectionArea)
    (hsplit : scene.selections = pre ++ bad :: post)
    (hbad : bad.type = SelectionType.imageAi)
    (hne : ¬(pre ++ post = []))
    (hfail : ∀ tr : List DrawOp,
      aiFailed (oracle ⟨tr, bad.x, bad.y, bad.w, bad.h,
        lookupRep scene.replacements bad.id⟩) = true) :
    (∀ c : Ctx, restoreAiSel apiKey oracle scene.replacements c bad = c) ∧
    handleRestore jm measure (some original) scene replImgs stkImgs apiKey oracle
      = handleRestore jm measure (some original)
          { scene with selections := pre ++ post } replImgs stkImgs apiKey oracle := by
  refine ⟨restoreAiSel_failed apiKey oracle scene.replacements bad hfail, ?_⟩
  have hft : (pre ++ bad :: post).filter (fun s => s.type = SelectionType.text)
      = pre.filter (fun s => s.type = SelectionType.text)
        ++ post.filter (fun s => s.type = SelectionType.text) := by
    simp [List.filter_append, List.filter_cons, hbad]
  have hfr : (pre ++ bad :: post).filter (fun s => s.type = SelectionType.imageReplace)
      = pre.filter (fun s => s.type = SelectionType.imageReplace)
        ++ post.filter (fun s => s.type = SelectionType.imageReplace) := by
    simp [List.filter_append, List.filter_cons, hbad]
  have hfa : (pre ++ bad :: post).filter (fun s => s.type = SelectionType.imageAi)
      = pre.filter (fun s => s.type = SelectionType.imageAi)
        ++ bad :: post.filter (fun s => s.type = SelectionType.imageAi) := by
    simp [List.filter_append, List.filter_cons, hbad]
  simp only [handleRestore, hsplit]
  rw [if_neg (by simp : ¬(pre ++ bad :: post = [])), if_neg hne]
  rw [hft, hfr, hfa]
  simp only [List.filter_append]
  rw [aiFold_failed_middle apiKey oracle scene.replacements bad _ _ hfail]

/-- C9 witness: in the concrete scene `sceneC9`, the middle ai-image
region's generation call throws, and the export equals the export of the
same scene without that region — the second ai region, the sticker and
the custom text are all still drawn. -/
theorem c9_witness :
    (sceneC9.selections = [textSelEx] ++ badSelEx :: [goodSelEx] ∧
      badSelEx.type = SelectionType.imageAi ∧
      ¬(([textSelEx] ++ [goodSelEx] : List SelectionArea) = []) ∧
      (∀ tr : List DrawOp, aiFailed (oracle9 ⟨tr, badSelEx.x, badSelEx.y, badSelEx.w,
        badSelEx.h, lookupRep sceneC9.replacements badSelEx.id⟩) = true)) ∧
    handleRestore jmEx measure0 (some ras1) sceneC9 [] stkCache9 (some "k") oracle9
      = handleRestore jmEx measure0 (some ras1)
          { sceneC9 with selections := [textSelEx] ++ [goodSelEx] } [] stkCache9
          (some "k") oracle9 :=
  ⟨⟨rfl, rfl, by decide, fun _ => rfl⟩,
    (c9_ai_failure_isolated jmEx measure0 ras1 sceneC9 [] stkCache9 (some "k") oracle9
      [textSelEx] [goodSelEx] badSelEx rfl rfl (by decide) (fun _ => rfl)).2⟩
